import Mathlib

/-!
# Verification of the archer-defence entity simulation

Shallow embedding of the core simulation of the archer-defence game
(`src/js/index.ts`): geometry and steering, projectile ticks, the attack
cooldown, enemy AI, scoring and levelling, entity destruction, and enemy
spawning.  Positions, angles, speeds and times are modelled as real
numbers; scores and levels as naturals.  The square-root comparisons of
the source (`detectCollision`, `Enemy.canAttackArcher`) are embedded in
their equivalent squared form, with bridge lemmas relating them to the
literal `Real.sqrt` comparison of the source.
-/

open Classical

noncomputable section

namespace ArcherDefence

/-! ## Geometry (DynamicGameObject.getAngleToTarget, stepByMoveAngle,
    detectCollision, Enemy.canAttackArcher) -/

/-- `DynamicGameObject.getAngleToTarget` (index.ts:154-167): the angle from
the target to self in degrees, `atan(diffY/diffX)*180/π`, corrected by
+180 when `diffY ≥ 0 ∧ diffX ≥ 0`, by −180 when `diffY ≤ 0 ∧ diffX ≥ 0`. -/
def getAngleToTarget (sx sy tx ty : ℝ) : ℝ :=
  let diffX := sx - tx
  let diffY := sy - ty
  let angle := Real.arctan (diffY / diffX) * 180 / Real.pi
  if diffY ≥ 0 ∧ diffX ≥ 0 then angle + 180
  else if diffY ≤ 0 ∧ diffX ≥ 0 then angle - 180
  else angle

/-- The angle-to-target function exactly as the specification words it:
`atan(dy/dx)·180/π`, no adjustment at all when `dx < 0`, plus 180 when
`dy ≥ 0` (taking precedence at `dy = 0`), minus 180 otherwise. -/
def angleToTargetSpec (sx sy tx ty : ℝ) : ℝ :=
  let dx := sx - tx
  let dy := sy - ty
  let base := Real.arctan (dy / dx) * 180 / Real.pi
  if dx < 0 then base
  else if dy ≥ 0 then base + 180
  else base - 180

/-- One Euler step along a facing angle (degrees), as in
`DynamicGameObject.stepByMoveAngle` (index.ts:147-152). -/
def stepPos (x y angle speed delta : ℝ) : ℝ × ℝ :=
  (x + Real.cos (angle / 180 * Real.pi) * speed * delta,
   y + Real.sin (angle / 180 * Real.pi) * speed * delta)

/-- Collision radius of a game object: `min(width, height) / 2`
(index.ts:663-664). -/
def minRadius (w h : ℝ) : ℝ := min w h / 2

/-- `detectCollision` (index.ts:662-670): the source compares
`sqrt(dx²+dy²) < radius1+radius2`; this is its exact squared form
(see `detectCollision_iff_sqrt`). -/
def detectCollision (x1 y1 w1 h1 x2 y2 w2 h2 : ℝ) : Prop :=
  0 < minRadius w1 h1 + minRadius w2 h2 ∧
    (x1 - x2) ^ 2 + (y1 - y2) ^ 2 < (minRadius w1 h1 + minRadius w2 h2) ^ 2

end ArcherDefence

namespace ArcherDefence

/-! ## Entities -/

/-- The projectile classes of the source. -/
inductive BulletKind
  | archersBullet
  | enemiesArrow
  | enemiesFireBall
  | skeletonsSword
  deriving DecidableEq

/-- Initial speed of each bullet class (`DynamicGameObject.init` sets 1;
`ArchersBullet.init` sets 3; `SkeletonsSword.init` sets 10). -/
def bulletKindSpeed : BulletKind → ℝ
  | .archersBullet => 3
  | .enemiesArrow => 1
  | .enemiesFireBall => 1
  | .skeletonsSword => 10

/-- Initial width of each bullet class (`Bullet.init` sets 20×4;
`EnemiesFireBall.init` sets 6×6). -/
def bulletKindWidth : BulletKind → ℝ
  | .enemiesFireBall => 6
  | _ => 20

/-- Initial height of each bullet class. -/
def bulletKindHeight : BulletKind → ℝ
  | .enemiesFireBall => 6
  | _ => 4

/-- A projectile.  `tickTime` is the `SkeletonsSword` tick counter
(index.ts:232, 238); it is 0 and unused for the other kinds. -/
structure Bullet where
  x : ℝ
  y : ℝ
  width : ℝ
  height : ℝ
  speed : ℝ
  moveAngle : ℝ
  lookAngle : ℝ
  spriteLooks : ℝ
  kind : BulletKind
  tickTime : ℤ
  destroyed : Bool

/-- A fighter (`Fighter`, index.ts:251-276): the attack-relevant state of
an archer or an enemy. -/
structure Fighter where
  x : ℝ
  y : ℝ
  width : ℝ
  height : ℝ
  speed : ℝ
  moveAngle : ℝ
  lookAngle : ℝ
  spriteLooks : ℝ
  attackSpeed : ℝ
  lastAttackTime : ℝ
  bullet : BulletKind
  destroyed : Bool

/-- An enemy (`Enemy`, index.ts:278-337) is a fighter with an attack range. -/
structure Enemy extends Fighter where
  attackRange : ℝ

/-- The archer as seen by enemies and enemy projectiles: its position and
size (used by `detectCollision` and `canAttackArcher`). -/
structure Archer where
  x : ℝ
  y : ℝ
  width : ℝ
  height : ℝ

/-- The simulation state (`Game`, index.ts:472-605) restricted to the
fields the core logic reads and writes.  The constructor sizes the floor
to the game window (index.ts:503-504), so concrete games have
`floorWidth = gameWindowWidth` and `floorHeight = gameWindowHeight`. -/
structure Game where
  gameWindowWidth : ℝ
  gameWindowHeight : ℝ
  floorWidth : ℝ
  floorHeight : ℝ
  score : ℕ
  level : ℕ
  enemies : List Enemy
  bullets : List Bullet
  archer : Archer
  isGamePlay : Bool
  tickSubscriptions : List ℕ

/-! ## Projectile construction and Fighter.attackTo -/

/-- A fresh projectile as built inside `Fighter.attackTo` (index.ts:266-271):
`new this.bullet()` runs the kind's `init`, then `setPosition(this.x, this.y)`,
`lookOn(x, y)` and `setMoveDirection(x, y)`.  All bullet classes have
`spriteLooks = Left = 180`. -/
def newBullet (k : BulletKind) (x y tx ty : ℝ) : Bullet :=
  { x := x
    y := y
    width := bulletKindWidth k
    height := bulletKindHeight k
    speed := bulletKindSpeed k
    moveAngle := getAngleToTarget x y tx ty
    lookAngle := getAngleToTarget x y tx ty + 180
    spriteLooks := 180
    kind := k
    tickTime := if k = .skeletonsSword then 5 else 0
    destroyed := false }

/-- `Fighter.attackTo` (index.ts:261-275): always faces the target
(`lookOn`); then, only if `lastAttackTime + 1000 / attackSpeed < now`,
spawns one bullet of the fighter's kind at the fighter's position aimed at
the target, registers it with the game, and sets `lastAttackTime = now`. -/
def Fighter.attackTo (f : Fighter) (g : Game) (now tx ty : ℝ) :
    Fighter × Game :=
  let f1 := { f with lookAngle := getAngleToTarget f.x f.y tx ty + f.spriteLooks }
  if f1.lastAttackTime + 1000 / f1.attackSpeed < now then
    ({ f1 with lastAttackTime := now },
     { g with bullets := g.bullets ++ [newBullet f1.bullet f1.x f1.y tx ty] })
  else (f1, g)

/-! ## Projectile ticks -/

/-- `DynamicGameObject.stepByMoveAngle` for a bullet (index.ts:147-152). -/
def Bullet.step (b : Bullet) (delta : ℝ) : Bullet :=
  { b with
    x := (stepPos b.x b.y b.moveAngle b.speed delta).1
    y := (stepPos b.x b.y b.moveAngle b.speed delta).2 }

/-- The arena-bounds test of `Bullet.onTick` (index.ts:182): the position
is outside `[0, floor.width] × [0, floor.height]` on either axis. -/
def Bullet.outside (b : Bullet) (g : Game) : Prop :=
  b.x < 0 ∨ b.x > g.floorWidth ∨ b.y < 0 ∨ b.y > g.floorHeight

/-- `Bullet.onTick` (index.ts:179-185): move along the launch angle, then
`destroy()` when the new position is out of bounds.  The second component
is the error raised by `GameObject.destroy` when the bullet was already
destroyed (index.ts:67); the state reached before the throw is kept. -/
def Bullet.onTickBase (b : Bullet) (g : Game) (delta : ℝ) :
    Bullet × Option String :=
  let b1 := b.step delta
  if b1.outside g then
    if b1.destroyed then (b1, some "Is destroyed now")
    else ({ b1 with destroyed := true }, none)
  else (b1, none)

/-- `detectCollision` between a bullet and an enemy. -/
def collidesBE (b : Bullet) (e : Enemy) : Prop :=
  detectCollision b.x b.y b.width b.height e.x e.y e.width e.height

/-- `detectCollision` between a bullet and the archer. -/
def collidesBA (b : Bullet) (a : Archer) : Prop :=
  detectCollision b.x b.y b.width b.height a.x a.y a.width a.height

/-- Scoring and levelling, `Game.addScore` (index.ts:544-550):
`++score; level = min(max(floor(sqrt(score)), 1), 10)`. -/
def Game.addScore (g : Game) : Game :=
  let score := g.score + 1
  { g with score := score, level := min (max (Nat.sqrt score) 1) 10 }

/-- `ArchersBullet.checkEnemiesCollision` (index.ts:201-208), unrolled over
the live-enemy set with the score/level bookkeeping of `Enemy.destroy`
(index.ts:307-314) inlined: for each enemy that overlaps the bullet, the
bullet is destroyed first (raising `Is destroyed now` when it already is,
which aborts the sweep with the unvisited enemies still live), then the
enemy is destroyed, removed from the set, and the score incremented.
Returns the bullet, the surviving enemies, the new score and level, and
the raised error if any. -/
def sweepEnemies (b : Bullet) (score level : ℕ) :
    List Enemy → Bullet × List Enemy × ℕ × ℕ × Option String
  | [] => (b, [], score, level, none)
  | e :: rest =>
    if collidesBE b e then
      if b.destroyed then (b, e :: rest, score, level, some "Is destroyed now")
      else
        let b1 : Bullet := { b with destroyed := true }
        if e.destroyed then (b1, e :: rest, score, level, some "Is destroyed now")
        else
          let score1 := score + 1
          let level1 := min (max (Nat.sqrt score1) 1) 10
          sweepEnemies b1 score1 level1 rest
    else
      let r := sweepEnemies b score level rest
      (r.1, e :: r.2.1, r.2.2)

/-- `ArchersBullet.onTick` (index.ts:195-199): the base bullet tick (move
and bounds check), then the enemy-collision sweep.  An error from the base
tick propagates before the sweep runs. -/
def archersBulletOnTick (b : Bullet) (g : Game) (delta : ℝ) :
    Bullet × Game × Option String :=
  let r := b.onTickBase g delta
  match r.2 with
  | some e => (r.1, g, some e)
  | none =>
    let s := sweepEnemies r.1 g.score g.level g.enemies
    (s.1, { g with enemies := s.2.1, score := s.2.2.1, level := s.2.2.2.1 },
      s.2.2.2.2)

/-- `Game.gameOver` (index.ts:523-527): alerts and stops the game
(`destroy` clears the ticking interval and sets `isGamePlay = false`). -/
def Game.gameOver (g : Game) : Game :=
  { g with isGamePlay := false }

/-- `EnemiesArrow.onTick` (index.ts:212-218): the base bullet tick, then a
collision test against the archer only; on overlap the game ends.  The
arrow itself is never destroyed by the hit. -/
def enemiesArrowOnTick (b : Bullet) (g : Game) (delta : ℝ) :
    Bullet × Game × Option String :=
  let r := b.onTickBase g delta
  match r.2 with
  | some e => (r.1, g, some e)
  | none =>
    if collidesBA r.1 g.archer then (r.1, g.gameOver, none) else (r.1, g, none)

/-- `SkeletonsSword.onTick` (index.ts:242-248): the `EnemiesArrow` tick,
then `if (!--tickTime) destroy()`: the counter always decrements by one,
and when it reaches exactly 0 the sword destroys itself — raising
`Is destroyed now` when the bounds check already destroyed it this tick. -/
def skeletonsSwordOnTick (b : Bullet) (g : Game) (delta : ℝ) :
    Bullet × Game × Option String :=
  let r := enemiesArrowOnTick b g delta
  match r.2.2 with
  | some e => (r.1, r.2.1, some e)
  | none =>
    let b1 : Bullet := { r.1 with tickTime := r.1.tickTime - 1 }
    if b1.tickTime = 0 then
      if b1.destroyed then (b1, r.2.1, some "Is destroyed now")
      else ({ b1 with destroyed := true }, r.2.1, none)
    else (b1, r.2.1, none)

/-! ## Enemy AI and destruction -/

/-- `Enemy.canAttackArcher` (index.ts:331-336): the source compares
`sqrt(diffX² + diffY²) ≤ attackRange`; this is its exact squared form
(see `canAttackArcher_iff_sqrt`). -/
def canAttackArcher (e : Enemy) (g : Game) : Prop :=
  0 ≤ e.attackRange ∧
    (e.x - g.archer.x) ^ 2 + (e.y - g.archer.y) ^ 2 ≤ e.attackRange ^ 2

/-- The approach branch of `Enemy.onTick` (index.ts:326-327): `lookOn` the
archer, then `stepTo` (set the move angle toward the archer and step by it). -/
def enemyApproach (e : Enemy) (g : Game) (delta : ℝ) : Enemy :=
  let ang := getAngleToTarget e.x e.y g.archer.x g.archer.y
  { e with
    lookAngle := ang + e.spriteLooks
    moveAngle := ang
    x := (stepPos e.x e.y ang e.speed delta).1
    y := (stepPos e.x e.y ang e.speed delta).2 }

/-- `Enemy.onTick` (index.ts:322-329): attack the archer's position when
in range, otherwise face the archer and step toward it. -/
def enemyOnTick (e : Enemy) (g : Game) (now delta : ℝ) : Enemy × Game :=
  if canAttackArcher e g then
    let r := e.toFighter.attackTo g now g.archer.x g.archer.y
    ({ e with toFighter := r.1 }, r.2)
  else (enemyApproach e g delta, g)

/-- `Enemy.destroy` for the enemy at index `i` of the live set
(index.ts:307-314 with `GameObject.destroy`, index.ts:66-73): errors when
the enemy is already destroyed; otherwise increments the score, recomputes
the level, and removes the enemy from the set. -/
def enemyDestroy (g : Game) (i : ℕ) : Except String Game :=
  match g.enemies.get? i with
  | none => .error "no such enemy"
  | some e =>
    if e.destroyed then .error "Is destroyed now"
    else .ok (Game.addScore { g with enemies := g.enemies.eraseIdx i })

/-! ## Generic entity destruction (GameObject.destroy /
    DynamicGameObject.destroy) -/

/-- The lifecycle state of a simulated object: its identity in the tick
registry, its destroyed flag, and whether `addToGame` installed a tick
callback (`bindOnTick`, index.ts:126). -/
structure DynObj where
  id : ℕ
  destroyed : Bool
  hasBindOnTick : Bool

/-- `GameObject.destroy` (index.ts:66-73): throws `Is destroyed now` when
already destroyed, else marks destroyed. -/
def gameObjectDestroy (o : DynObj) : Except String DynObj :=
  if o.destroyed then .error "Is destroyed now"
  else .ok { o with destroyed := true }

/-- `DynamicGameObject.destroy` (index.ts:115-121): the base destroy, then
`tickUnsubscribe(bindOnTick)` when a tick callback was installed. -/
def dynamicGameObjectDestroy (o : DynObj) (g : Game) :
    Except String (DynObj × Game) :=
  match gameObjectDestroy o with
  | .error e => .error e
  | .ok o1 =>
    if o.hasBindOnTick then
      .ok (o1, { g with tickSubscriptions := g.tickSubscriptions.erase o.id })
    else .ok (o1, g)

/-! ## Enemy spawning -/

/-- `random(min, max)` (index.ts:693-695):
`Math.floor(Math.random() * (max - min + 1) + min)`, with the
`Math.random()` draw `u ∈ [0, 1)` made explicit. -/
def jsRandom (lo hi u : ℝ) : ℝ := ⌊u * (hi - lo + 1) + lo⌋

/-- The spawn-position choice of `Game.generateRandomEnemy`
(index.ts:578-582), with the four `Math.random()` draws made explicit:
when the first coin is truthy, a random x on the width and y snapped to a
horizontal edge; otherwise x snapped to a vertical edge and a random y. -/
def spawnPosition (w h u1 u2 u3 : ℝ) : ℝ × ℝ :=
  if jsRandom 0 1 u1 ≠ 0 then (jsRandom 0 w u2, jsRandom 0 1 u3 * h)
  else (jsRandom 0 1 u2 * w, jsRandom 0 h u3)

/-- How many live enemies overlap a bullet (the number of `destroy()`
calls `checkEnemiesCollision` makes on the bullet). -/
def countOverlaps (b : Bullet) : List Enemy → ℕ
  | [] => 0
  | e :: rest => (if collidesBE b e then 1 else 0) + countOverlaps b rest

/-! ## Concrete fixtures for counterexamples and witnesses -/

/-- The archer as constructed by `Game` (index.ts:506-508): size 25×22
(`Archer.init`), placed at the centre of the 600×600 window. -/
def archer300 : Archer :=
  { x := 300, y := 300, width := 25, height := 22 }

/-- A fresh 600×600 game (`new Game({gameWindowWidth: 600,
gameWindowHeight: 600})`, index.ts:649-653), floor sized to the window. -/
def baseGame : Game :=
  { gameWindowWidth := 600, gameWindowHeight := 600, floorWidth := 600,
    floorHeight := 600, score := 0, level := 1, enemies := [], bullets := [],
    archer := archer300, isGamePlay := true, tickSubscriptions := [] }

/-- A tier-0 skeleton enemy (`ENEMIES[0]`, index.ts:608-619: size 25×22,
attack range 20, attack speed 1, speed 1) at a given position. -/
def skeletonAt (x y : ℝ) : Enemy :=
  { x := x, y := y, width := 25, height := 22, speed := 1, moveAngle := 0,
    lookAngle := 0, spriteLooks := 270, attackSpeed := 1, lastAttackTime := 0,
    bullet := BulletKind.skeletonsSword, destroyed := false, attackRange := 20 }

/-- A live projectile of kind `k` at a given position, moving along
angle 0, with its class's initial size and speed. -/
def bulletAt (x y : ℝ) (k : BulletKind) : Bullet :=
  { x := x, y := y, width := bulletKindWidth k, height := bulletKindHeight k,
    speed := bulletKindSpeed k, moveAngle := 0, lookAngle := 0,
    spriteLooks := 180, kind := k, tickTime := 0, destroyed := false }

/-- The archer as a fighter (`Archer.init`, index.ts:347-357: bullet
`ArchersBullet`, attack speed 2, size 25×22) at the window centre. -/
def archerFighter : Fighter :=
  { x := 300, y := 300, width := 25, height := 22, speed := 1, moveAngle := 0,
    lookAngle := 0, spriteLooks := 270, attackSpeed := 2, lastAttackTime := 0,
    bullet := BulletKind.archersBullet, destroyed := false }

/-! ## Bridge lemmas: the squared comparisons are the source's
    square-root comparisons -/

theorem detectCollision_iff_sqrt (x1 y1 w1 h1 x2 y2 w2 h2 : ℝ) :
    detectCollision x1 y1 w1 h1 x2 y2 w2 h2 ↔
      Real.sqrt ((x1 - x2) ^ 2 + (y1 - y2) ^ 2) <
        minRadius w1 h1 + minRadius w2 h2 := by
  constructor
  · rintro ⟨hr, hd⟩
    exact (Real.sqrt_lt' hr).mpr hd
  · intro h
    have hr : 0 < minRadius w1 h1 + minRadius w2 h2 :=
      lt_of_le_of_lt (Real.sqrt_nonneg _) h
    exact ⟨hr, (Real.sqrt_lt' hr).mp h⟩

theorem canAttackArcher_iff_sqrt (e : Enemy) (g : Game) :
    canAttackArcher e g ↔
      Real.sqrt ((e.x - g.archer.x) ^ 2 + (e.y - g.archer.y) ^ 2) ≤
        e.attackRange := by
  rw [Real.sqrt_le_iff]
  exact Iff.rfl

/-! ## Helper lemmas -/

theorem jsRandom_coin (u : ℝ) (h0 : 0 ≤ u) (h1 : u < 1) :
    jsRandom 0 1 u = 0 ∨ jsRandom 0 1 u = 1 := by
  unfold jsRandom
  have hlo : (0 : ℤ) ≤ ⌊u * (1 - 0 + 1) + 0⌋ := by
    apply Int.floor_nonneg.mpr; nlinarith
  have hhi : ⌊u * (1 - 0 + 1) + 0⌋ < 2 := by
    rw [Int.floor_lt]; push_cast; nlinarith
  interval_cases h : ⌊u * (1 - 0 + 1) + 0⌋ <;> simp [h]

theorem jsRandom_nat_range (n : ℕ) (u : ℝ) (h0 : 0 ≤ u) (h1 : u < 1) :
    0 ≤ jsRandom 0 n u ∧ jsRandom 0 n u ≤ n := by
  unfold jsRandom
  have hn : (0 : ℝ) < (n : ℝ) + 1 := by positivity
  constructor
  · have : (0 : ℤ) ≤ ⌊u * ((n : ℝ) - 0 + 1) + 0⌋ := by
      apply Int.floor_nonneg.mpr; nlinarith
    exact_mod_cast this
  · have : ⌊u * ((n : ℝ) - 0 + 1) + 0⌋ < (n : ℤ) + 1 := by
      rw [Int.floor_lt]; push_cast; nlinarith
    have h2 : ⌊u * ((n : ℝ) - 0 + 1) + 0⌋ ≤ (n : ℤ) := by omega
    exact_mod_cast h2

theorem collidesBE_destroyed (b : Bullet) (e : Enemy) :
    collidesBE { b with destroyed := true } e ↔ collidesBE b e := Iff.rfl

theorem countOverlaps_destroyed (b : Bullet) (es : List Enemy) :
    countOverlaps { b with destroyed := true } es = countOverlaps b es := by
  induction es with
  | nil => rfl
  | cons e rest ih =>
    simp only [countOverlaps, ih]
    rfl

theorem countOverlaps_eq_zero (b : Bullet) (es : List Enemy) :
    countOverlaps b es = 0 ↔ ∀ e ∈ es, ¬collidesBE b e := by
  induction es with
  | nil => simp [countOverlaps]
  | cons e rest ih =>
    by_cases hc : collidesBE b e
    · simp [countOverlaps, hc, ih]
    · simp [countOverlaps, hc, ih]

/-- A sweep over enemies none of which overlap the bullet changes nothing
and raises nothing, whatever the bullet's destroyed flag. -/
theorem sweepEnemies_no_overlap (b : Bullet) (s l : ℕ) (es : List Enemy)
    (h : ∀ e ∈ es, ¬collidesBE b e) :
    sweepEnemies b s l es = (b, es, s, l, none) := by
  induction es with
  | nil => rfl
  | cons e rest ih =>
    have hc : ¬collidesBE b e := h e (List.mem_cons_self e rest)
    have hrest : ∀ x ∈ rest, ¬collidesBE b x := by
      intro x hx; exact h x (List.mem_cons_of_mem e hx)
    simp only [sweepEnemies, hc, if_false, ih hrest]

/-- A sweep in which the live bullet overlaps exactly one enemy, itself
live: the bullet and that enemy are destroyed, the enemy leaves the set,
the score is incremented and the level recomputed, with no error. -/
theorem sweepEnemies_single (b : Bullet) (s l : ℕ) (l1 : List Enemy)
    (e : Enemy) (l2 : List Enemy)
    (hb : b.destroyed = false) (he : e.destroyed = false)
    (hc : collidesBE b e)
    (h1 : ∀ x ∈ l1, ¬collidesBE b x) (h2 : ∀ x ∈ l2, ¬collidesBE b x) :
    sweepEnemies b s l (l1 ++ e :: l2) =
      ({ b with destroyed := true }, l1 ++ l2, s + 1,
        min (max (Nat.sqrt (s + 1)) 1) 10, none) := by
  induction l1 with
  | nil =>
    have h2' : ∀ x ∈ l2, ¬collidesBE ({ b with destroyed := true } : Bullet) x := h2
    simp only [List.nil_append, sweepEnemies, hc, if_true, hb, he,
      Bool.false_eq_true, if_false,
      sweepEnemies_no_overlap _ _ _ l2 h2']
  | cons x l1' ih =>
    have hx : ¬collidesBE b x := h1 x (List.mem_cons_self x l1')
    have h1' : ∀ y ∈ l1', ¬collidesBE b y := by
      intro y hy; exact h1 y (List.mem_cons_of_mem x hy)
    simp only [List.cons_append, sweepEnemies, hx, if_false, List.append_eq,
      ih h1']

/-- A sweep in which the moved bullet overlaps at most one live enemy
raises no error. -/
theorem sweepEnemies_err_none (b : Bullet) (s l : ℕ) (es : List Enemy)
    (hb : b.destroyed = false)
    (hlive : ∀ e ∈ es, e.destroyed = false)
    (hcount : countOverlaps b es ≤ 1) :
    (sweepEnemies b s l es).2.2.2.2 = none := by
  induction es generalizing b s l with
  | nil => rfl
  | cons e rest ih =>
    by_cases hc : collidesBE b e
    · have he : e.destroyed = false := hlive e (List.mem_cons_self e rest)
      have hrest0 : countOverlaps b rest = 0 := by
        have := hcount
        simp only [countOverlaps, hc, if_true] at this
        omega
      have hnone : ∀ x ∈ rest, ¬collidesBE b x :=
        (countOverlaps_eq_zero b rest).mp hrest0
      have hnone' : ∀ x ∈ rest, ¬collidesBE ({ b with destroyed := true } : Bullet) x := hnone
      simp only [sweepEnemies, hc, if_true, hb, he, Bool.false_eq_true,
        if_false, sweepEnemies_no_overlap _ _ _ rest hnone']
    · have hrest : countOverlaps b rest ≤ 1 := by
        have := hcount
        simp only [countOverlaps, hc, if_false] at this
        omega
      have hliveRest : ∀ x ∈ rest, x.destroyed = false := by
        intro x hx; exact hlive x (List.mem_cons_of_mem e hx)
      simp only [sweepEnemies, hc, if_false]
      exact ih b s l hb hliveRest hrest

/-- `EnemiesArrow.onTick` on a live arrow in closed form: move, flag when
out of bounds, end the game when overlapping the archer; never an error,
and the arrow is never destroyed by the archer hit. -/
theorem enemiesArrowOnTick_eq (b : Bullet) (g : Game) (delta : ℝ)
    (hb : b.destroyed = false) :
    enemiesArrowOnTick b g delta =
      ((if (b.step delta).outside g
          then { b.step delta with destroyed := true } else b.step delta),
        (if collidesBA (b.step delta) g.archer then g.gameOver else g),
        none) := by
  unfold enemiesArrowOnTick Bullet.onTickBase
  by_cases ho : (b.step delta).outside g
  · have hd : (b.step delta).destroyed = false := hb
    simp only [ho, if_true, hd, Bool.false_eq_true, if_false]
    by_cases hcA : collidesBA (b.step delta) g.archer
    · rw [if_pos hcA]
      split_ifs with h
      · rfl
      · exact absurd hcA h
    · rw [if_neg hcA]
      split_ifs with h
      · exact absurd h hcA
      · rfl
  · simp only [ho, if_false]
    by_cases hcA : collidesBA (b.step delta) g.archer
    · simp only [hcA, if_true]
    · simp only [hcA, if_false]

/-- The level clamp `min(max(floor(sqrt(n)), 1), 10)` at a known square
root. -/
theorem clampSqrt_eq (n a : ℕ) (h1 : a * a ≤ n) (h2 : n < (a + 1) * (a + 1))
    (h3 : 1 ≤ a) (h4 : a ≤ 10) :
    min (max (Nat.sqrt n) 1) 10 = a := by
  have l1 : a ≤ Nat.sqrt n := Nat.le_sqrt.mpr h1
  have l2 : Nat.sqrt n < a + 1 := Nat.sqrt_lt.mpr h2
  omega

/-- A tick with delta 0 leaves a bullet's position unchanged. -/
theorem Bullet.step_zero (b : Bullet) : b.step 0 = b := by
  simp [Bullet.step, stepPos]

/-- `Bullet.onTick` on a live bullet in closed form: move, then flag as
destroyed exactly when out of bounds; never an error. -/
theorem onTickBase_eq (b : Bullet) (g : Game) (delta : ℝ)
    (hb : b.destroyed = false) :
    b.onTickBase g delta =
      ((if (b.step delta).outside g
          then { b.step delta with destroyed := true } else b.step delta),
        none) := by
  unfold Bullet.onTickBase
  by_cases ho : (b.step delta).outside g
  · have hd : (b.step delta).destroyed = false := hb
    simp only [ho, if_true, hd, Bool.false_eq_true, if_false]
  · simp only [ho, if_false]

/-- `Fighter.attackTo` in closed form. -/
theorem attackTo_eq (f : Fighter) (g : Game) (now tx ty : ℝ) :
    Fighter.attackTo f g now tx ty =
      (if f.lastAttackTime + 1000 / f.attackSpeed < now
        then ({ f with
                  lookAngle := getAngleToTarget f.x f.y tx ty + f.spriteLooks,
                  lastAttackTime := now },
              { g with bullets :=
                  g.bullets ++ [newBullet f.bullet f.x f.y tx ty] })
        else ({ f with
                  lookAngle := getAngleToTarget f.x f.y tx ty + f.spriteLooks },
              g)) := rfl

/-! ## Claim C1 -/

/-- C1 counterexample: with `attackSpeed = 2` and `lastAttackTime = 0`, a
call at `now = 500` satisfies the claim's firing condition
`now ≥ lastAttackTime + 1000/attackSpeed`, yet the code spawns no
projectile: the source fires only when the cooldown has strictly passed
(`lastAttackTime + 1000 / attackSpeed < now`, index.ts:265). -/
theorem attackTo_boundary_no_fire :
    (Fighter.attackTo archerFighter baseGame 500 10 10).2.bullets = []
    ∧ (500 : ℝ) ≥ archerFighter.lastAttackTime + 1000 / archerFighter.attackSpeed := by
  constructor
  · rw [attackTo_eq, if_neg]
    · rfl
    · show ¬(archerFighter.lastAttackTime + 1000 / archerFighter.attackSpeed < 500)
      norm_num [archerFighter]
  · norm_num [archerFighter]

/-- C1 (amended): `attackTo(x, y)` always updates the fighter's facing
toward `(x, y)`; it spawns a projectile if and only if
`now > lastAttackTime + 1000/attackSpeed` (strictly — a call exactly at
the end of the cooldown is dropped); when it fires it appends exactly one
projectile of the fighter's configured kind to the game, placed at the
fighter's position, facing and launched toward `(x, y)`, and sets
`lastAttackTime = now`; when it does not fire, nothing besides the facing
changes and no error is signalled. -/
theorem attackTo_spec (f : Fighter) (g : Game) (now tx ty : ℝ) :
    (Fighter.attackTo f g now tx ty).1.lookAngle
        = getAngleToTarget f.x f.y tx ty + f.spriteLooks
    ∧ (Fighter.attackTo f g now tx ty).2.bullets
        = (if f.lastAttackTime + 1000 / f.attackSpeed < now
            then g.bullets ++ [newBullet f.bullet f.x f.y tx ty]
            else g.bullets)
    ∧ (Fighter.attackTo f g now tx ty).1.lastAttackTime
        = (if f.lastAttackTime + 1000 / f.attackSpeed < now
            then now else f.lastAttackTime)
    ∧ (Fighter.attackTo f g now tx ty).1.x = f.x
    ∧ (Fighter.attackTo f g now tx ty).1.y = f.y
    ∧ (Fighter.attackTo f g now tx ty).1.attackSpeed = f.attackSpeed
    ∧ (Fighter.attackTo f g now tx ty).1.bullet = f.bullet
    ∧ (Fighter.attackTo f g now tx ty).1.destroyed = f.destroyed
    ∧ (Fighter.attackTo f g now tx ty).2.enemies = g.enemies
    ∧ (Fighter.attackTo f g now tx ty).2.score = g.score
    ∧ (Fighter.attackTo f g now tx ty).2.isGamePlay = g.isGamePlay
    ∧ (newBullet f.bullet f.x f.y tx ty).x = f.x
    ∧ (newBullet f.bullet f.x f.y tx ty).y = f.y
    ∧ (newBullet f.bullet f.x f.y tx ty).moveAngle
        = getAngleToTarget f.x f.y tx ty
    ∧ (newBullet f.bullet f.x f.y tx ty).lookAngle
        = getAngleToTarget f.x f.y tx ty
            + (newBullet f.bullet f.x f.y tx ty).spriteLooks
    ∧ (newBullet f.bullet f.x f.y tx ty).kind = f.bullet
    ∧ (newBullet f.bullet f.x f.y tx ty).destroyed = false := by
  rw [attackTo_eq]
  split_ifs with hc <;>
    exact ⟨rfl, rfl, rfl, rfl, rfl, rfl, rfl, rfl, rfl, rfl, rfl, rfl, rfl,
      rfl, rfl, rfl, rfl⟩

/-! ## Claim C4 -/

/-- C4: destroying a live registered enemy increments the score by exactly
one, removes the enemy from the live set, and recomputes the level as
`clamp(floor(sqrt(score)), 1, 10)`, which always lies in `[1, 10]`; in
particular scores 15, 16, 99, 100 yield levels 3, 4, 9, 10. -/
theorem enemyDestroy_spec (g : Game) (i : ℕ) (e : Enemy)
    (h1 : g.enemies.get? i = some e) (h2 : e.destroyed = false) :
    ∃ g', enemyDestroy g i = Except.ok g'
      ∧ g'.score = g.score + 1
      ∧ g'.enemies = g.enemies.eraseIdx i
      ∧ g'.level = min (max (Nat.sqrt (g.score + 1)) 1) 10
      ∧ 1 ≤ g'.level ∧ g'.level ≤ 10
      ∧ (∀ g0 : Game, g0.score = 14 →
          g0.addScore.score = 15 ∧ g0.addScore.level = 3)
      ∧ (∀ g0 : Game, g0.score = 15 →
          g0.addScore.score = 16 ∧ g0.addScore.level = 4)
      ∧ (∀ g0 : Game, g0.score = 98 →
          g0.addScore.score = 99 ∧ g0.addScore.level = 9)
      ∧ (∀ g0 : Game, g0.score = 99 →
          g0.addScore.score = 100 ∧ g0.addScore.level = 10) := by
  refine ⟨Game.addScore { g with enemies := g.enemies.eraseIdx i }, ?_, rfl,
    rfl, rfl, ?_, ?_, ?_, ?_, ?_, ?_⟩
  · unfold enemyDestroy
    rw [h1]
    simp only [h2, Bool.false_eq_true, if_false]
  · show 1 ≤ min (max (Nat.sqrt (g.score + 1)) 1) 10
    omega
  · show min (max (Nat.sqrt (g.score + 1)) 1) 10 ≤ 10
    omega
  · intro g0 hg0
    refine ⟨?_, ?_⟩
    · show g0.score + 1 = 15
      rw [hg0]
    · show min (max (Nat.sqrt (g0.score + 1)) 1) 10 = 3
      rw [hg0]
      exact clampSqrt_eq (14 + 1) 3 (by norm_num) (by norm_num)
        (by norm_num) (by norm_num)
  · intro g0 hg0
    refine ⟨?_, ?_⟩
    · show g0.score + 1 = 16
      rw [hg0]
    · show min (max (Nat.sqrt (g0.score + 1)) 1) 10 = 4
      rw [hg0]
      exact clampSqrt_eq (15 + 1) 4 (by norm_num) (by norm_num)
        (by norm_num) (by norm_num)
  · intro g0 hg0
    refine ⟨?_, ?_⟩
    · show g0.score + 1 = 99
      rw [hg0]
    · show min (max (Nat.sqrt (g0.score + 1)) 1) 10 = 9
      rw [hg0]
      exact clampSqrt_eq (98 + 1) 9 (by norm_num) (by norm_num)
        (by norm_num) (by norm_num)
  · intro g0 hg0
    refine ⟨?_, ?_⟩
    · show g0.score + 1 = 100
      rw [hg0]
    · show min (max (Nat.sqrt (g0.score + 1)) 1) 10 = 10
      rw [hg0]
      exact clampSqrt_eq (99 + 1) 10 (by norm_num) (by norm_num)
        (by norm_num) (by norm_num)

/-- C4 witness: destroying the single live enemy of a concrete game whose
score is 15 gives score 16 and level 4. -/
theorem enemyDestroy_spec_witness :
    ({ baseGame with
        score := 15
        enemies := [skeletonAt 0 0] } : Game).enemies.get? 0
        = some (skeletonAt 0 0)
    ∧ (skeletonAt 0 0).destroyed = false
    ∧ ∃ g', enemyDestroy { baseGame with
          score := 15
          enemies := [skeletonAt 0 0] } 0 = Except.ok g'
        ∧ g'.score = 15 + 1
        ∧ g'.enemies = ([skeletonAt 0 0] : List Enemy).eraseIdx 0
        ∧ g'.level = min (max (Nat.sqrt (15 + 1)) 1) 10
        ∧ 1 ≤ g'.level ∧ g'.level ≤ 10
        ∧ (∀ g0 : Game, g0.score = 14 →
            g0.addScore.score = 15 ∧ g0.addScore.level = 3)
        ∧ (∀ g0 : Game, g0.score = 15 →
            g0.addScore.score = 16 ∧ g0.addScore.level = 4)
        ∧ (∀ g0 : Game, g0.score = 98 →
            g0.addScore.score = 99 ∧ g0.addScore.level = 9)
        ∧ (∀ g0 : Game, g0.score = 99 →
            g0.addScore.score = 100 ∧ g0.addScore.level = 10) :=
  ⟨rfl, rfl, enemyDestroy_spec _ 0 (skeletonAt 0 0) rfl rfl⟩

/-! ## Claim C5 -/

/-- C5: `destroy()` on an already-destroyed entity fails loudly with the
`Is destroyed now` error and returns no changed state; on a live entity it
marks it destroyed, and for a mobile entity with an installed tick
callback it also removes the entity from the tick registry, so (the
registry holding each subscriber once) it receives no further ticks. -/
theorem destroy_spec (o : DynObj) (g : Game) :
    (o.destroyed = true →
      gameObjectDestroy o = Except.error "Is destroyed now"
      ∧ dynamicGameObjectDestroy o g = Except.error "Is destroyed now")
    ∧ (o.destroyed = false →
      gameObjectDestroy o = Except.ok { o with destroyed := true }
      ∧ dynamicGameObjectDestroy o g =
          Except.ok ({ o with destroyed := true },
            if o.hasBindOnTick
              then { g with tickSubscriptions := g.tickSubscriptions.erase o.id }
              else g)
      ∧ (o.hasBindOnTick = true → g.tickSubscriptions.Nodup →
          o.id ∉ g.tickSubscriptions.erase o.id)) := by
  constructor
  · intro hd
    have h1 : gameObjectDestroy o = Except.error "Is destroyed now" := by
      unfold gameObjectDestroy
      simp only [hd, if_true]
    refine ⟨h1, ?_⟩
    unfold dynamicGameObjectDestroy
    rw [h1]
  · intro hd
    have h1 : gameObjectDestroy o = Except.ok { o with destroyed := true } := by
      unfold gameObjectDestroy
      simp only [hd, Bool.false_eq_true, if_false]
    refine ⟨h1, ?_, ?_⟩
    · unfold dynamicGameObjectDestroy
      rw [h1]
      by_cases hb : o.hasBindOnTick <;> simp [hb]
    · intro _ hnd hmem
      exact (List.Nodup.mem_erase_iff hnd).mp hmem |>.1 rfl

/-- C5 witness: a concrete destroyed entity errors; a concrete live
subscribed entity is marked destroyed and leaves the registry. -/
theorem destroy_spec_witness :
    ((⟨7, true, true⟩ : DynObj).destroyed = true →
      gameObjectDestroy ⟨7, true, true⟩ = Except.error "Is destroyed now"
      ∧ dynamicGameObjectDestroy ⟨7, true, true⟩ baseGame
          = Except.error "Is destroyed now")
    ∧ ((⟨7, true, true⟩ : DynObj).destroyed = false →
      gameObjectDestroy ⟨7, true, true⟩
          = Except.ok { (⟨7, true, true⟩ : DynObj) with destroyed := true }
      ∧ dynamicGameObjectDestroy ⟨7, true, true⟩ baseGame =
          Except.ok ({ (⟨7, true, true⟩ : DynObj) with destroyed := true },
            if (⟨7, true, true⟩ : DynObj).hasBindOnTick
              then { baseGame with tickSubscriptions :=
                  baseGame.tickSubscriptions.erase 7 }
              else baseGame)
      ∧ ((⟨7, true, true⟩ : DynObj).hasBindOnTick = true →
          baseGame.tickSubscriptions.Nodup →
          7 ∉ baseGame.tickSubscriptions.erase 7)) :=
  destroy_spec ⟨7, true, true⟩ baseGame

/-! ## Claim C6 -/

/-- C6: each tick a projectile first advances along its fixed launch angle
by `speed · delta`, and then self-destroys exactly when the new position
leaves `[0, arenaWidth] × [0, arenaHeight]` on either axis; this path
raises no error. -/
theorem bulletOnTick_spec (b : Bullet) (g : Game) (delta : ℝ)
    (hb : b.destroyed = false) :
    (b.onTickBase g delta).1.x
        = b.x + Real.cos (b.moveAngle / 180 * Real.pi) * b.speed * delta
    ∧ (b.onTickBase g delta).1.y
        = b.y + Real.sin (b.moveAngle / 180 * Real.pi) * b.speed * delta
    ∧ ((b.onTickBase g delta).1.destroyed = true ↔
        ((b.step delta).x < 0 ∨ (b.step delta).x > g.floorWidth
          ∨ (b.step delta).y < 0 ∨ (b.step delta).y > g.floorHeight))
    ∧ (b.onTickBase g delta).2 = none := by
  rw [onTickBase_eq b g delta hb]
  refine ⟨?_, ?_, ?_, rfl⟩
  · split_ifs <;> rfl
  · split_ifs <;> rfl
  · by_cases ho : (b.step delta).outside g
    · rw [if_pos ho]
      exact ⟨fun _ => ho, fun _ => rfl⟩
    · rw [if_neg ho]
      constructor
      · intro h
        have hbd : b.destroyed = true := h
        rw [hb] at hbd
        exact absurd hbd (by decide)
      · intro h
        exact absurd h ho

/-- C6 witness: a concrete live bullet ticked with delta 0 stays at
`(5, 5)`, inside the 600×600 arena, and is not destroyed. -/
theorem bulletOnTick_spec_witness :
    (bulletAt 5 5 BulletKind.archersBullet).destroyed = false
    ∧ ((bulletAt 5 5 BulletKind.archersBullet).onTickBase baseGame 0).1.x
        = 5 + Real.cos (0 / 180 * Real.pi) * 3 * 0
    ∧ (((bulletAt 5 5 BulletKind.archersBullet).onTickBase baseGame 0).1.destroyed
        = true ↔
        (((bulletAt 5 5 BulletKind.archersBullet).step 0).x < 0
          ∨ ((bulletAt 5 5 BulletKind.archersBullet).step 0).x > baseGame.floorWidth
          ∨ ((bulletAt 5 5 BulletKind.archersBullet).step 0).y < 0
          ∨ ((bulletAt 5 5 BulletKind.archersBullet).step 0).y > baseGame.floorHeight))
    ∧ ((bulletAt 5 5 BulletKind.archersBullet).onTickBase baseGame 0).2 = none := by
  have h := bulletOnTick_spec (bulletAt 5 5 BulletKind.archersBullet) baseGame 0 rfl
  exact ⟨rfl, h.1, h.2.2.1, h.2.2.2⟩

/-! ## Claim C7 -/

/-- C7: each tick an enemy attacks the archer's position exactly when the
Euclidean distance to the archer is within its attack range (firing still
governed by `attackTo`'s own cooldown), and otherwise faces the archer and
steps toward it by `speed · delta`; there is no third behaviour and the
choice depends only on the current distance. -/
theorem enemyOnTick_spec (e : Enemy) (g : Game) (now delta : ℝ) :
    (canAttackArcher e g ↔
      Real.sqrt ((e.x - g.archer.x) ^ 2 + (e.y - g.archer.y) ^ 2) ≤
        e.attackRange)
    ∧ (canAttackArcher e g →
        enemyOnTick e g now delta =
          (let r := e.toFighter.attackTo g now g.archer.x g.archer.y
           ({ e with toFighter := r.1 }, r.2)))
    ∧ (¬canAttackArcher e g →
        enemyOnTick e g now delta = (enemyApproach e g delta, g))
    ∧ (¬canAttackArcher e g →
        (enemyOnTick e g now delta).1.x =
          (stepPos e.x e.y (getAngleToTarget e.x e.y g.archer.x g.archer.y)
            e.speed delta).1
        ∧ (enemyOnTick e g now delta).1.y =
          (stepPos e.x e.y (getAngleToTarget e.x e.y g.archer.x g.archer.y)
            e.speed delta).2
        ∧ (enemyOnTick e g now delta).1.lookAngle =
          getAngleToTarget e.x e.y g.archer.x g.archer.y + e.spriteLooks
        ∧ (enemyOnTick e g now delta).2 = g) := by
  refine ⟨canAttackArcher_iff_sqrt e g, ?_, ?_, ?_⟩
  · intro h
    unfold enemyOnTick
    rw [if_pos h]
  · intro h
    unfold enemyOnTick
    rw [if_neg h]
  · intro h
    unfold enemyOnTick
    rw [if_neg h]
    exact ⟨rfl, rfl, rfl, rfl⟩

/-- C7 witness: a skeleton standing on the archer is in range and its tick
is exactly an `attackTo` at the archer's position. -/
theorem enemyOnTick_spec_witness :
    canAttackArcher (skeletonAt 300 300) baseGame
    ∧ enemyOnTick (skeletonAt 300 300) baseGame 2000 1 =
        (let r := (skeletonAt 300 300).toFighter.attackTo baseGame 2000
            baseGame.archer.x baseGame.archer.y
         ({ skeletonAt 300 300 with toFighter := r.1 }, r.2)) := by
  have hc : canAttackArcher (skeletonAt 300 300) baseGame := by
    norm_num [canAttackArcher, skeletonAt, baseGame, archer300]
  exact ⟨hc, (enemyOnTick_spec (skeletonAt 300 300) baseGame 2000 1).2.1 hc⟩

/-! ## Claim C8 -/

/-- C8: for every outcome of the random draws, a spawned enemy's position
lies on the arena boundary — either `y ∈ {0, arenaHeight}` with
`x ∈ [0, arenaWidth]`, or `x ∈ {0, arenaWidth}` with
`y ∈ [0, arenaHeight]` — never strictly inside the arena. -/
theorem spawnPosition_boundary (w h : ℕ) (u1 u2 u3 : ℝ)
    (h2a : 0 ≤ u2) (h2b : u2 < 1) (h3a : 0 ≤ u3) (h3b : u3 < 1) :
    ((spawnPosition w h u1 u2 u3).2 = 0 ∨ (spawnPosition w h u1 u2 u3).2 = h
      ∨ (spawnPosition w h u1 u2 u3).1 = 0
      ∨ (spawnPosition w h u1 u2 u3).1 = w)
    ∧ 0 ≤ (spawnPosition w h u1 u2 u3).1
    ∧ (spawnPosition w h u1 u2 u3).1 ≤ w
    ∧ 0 ≤ (spawnPosition w h u1 u2 u3).2
    ∧ (spawnPosition w h u1 u2 u3).2 ≤ h
    ∧ ¬(0 < (spawnPosition w h u1 u2 u3).1
        ∧ (spawnPosition w h u1 u2 u3).1 < w
        ∧ 0 < (spawnPosition w h u1 u2 u3).2
        ∧ (spawnPosition w h u1 u2 u3).2 < h) := by
  have hxr := jsRandom_nat_range w u2 h2a h2b
  have hyr := jsRandom_nat_range h u3 h3a h3b
  have hcy := jsRandom_coin u3 h3a h3b
  have hcx := jsRandom_coin u2 h2a h2b
  by_cases hcoin : jsRandom 0 1 u1 ≠ 0
  · have heq : spawnPosition w h u1 u2 u3
        = (jsRandom 0 w u2, jsRandom 0 1 u3 * h) := by
      unfold spawnPosition
      rw [if_pos hcoin]
    rw [heq]
    dsimp only
    rcases hcy with hy | hy
    · have hy0 : jsRandom 0 1 u3 * (h : ℝ) = 0 := by rw [hy, zero_mul]
      refine ⟨Or.inl hy0, hxr.1, hxr.2, ?_, ?_, ?_⟩
      · rw [hy0]
      · rw [hy0]; positivity
      · rintro ⟨-, -, hgt, -⟩
        rw [hy0] at hgt
        exact lt_irrefl 0 hgt
    · have hyh : jsRandom 0 1 u3 * (h : ℝ) = h := by rw [hy, one_mul]
      refine ⟨Or.inr (Or.inl hyh), hxr.1, hxr.2, ?_, ?_, ?_⟩
      · rw [hyh]; positivity
      · rw [hyh]
      · rintro ⟨-, -, -, hlt⟩
        rw [hyh] at hlt
        exact lt_irrefl _ hlt
  · have heq : spawnPosition w h u1 u2 u3
        = (jsRandom 0 1 u2 * w, jsRandom 0 h u3) := by
      unfold spawnPosition
      rw [if_neg hcoin]
    rw [heq]
    dsimp only
    rcases hcx with hx | hx
    · have hx0 : jsRandom 0 1 u2 * (w : ℝ) = 0 := by rw [hx, zero_mul]
      refine ⟨Or.inr (Or.inr (Or.inl hx0)), ?_, ?_, hyr.1, hyr.2, ?_⟩
      · rw [hx0]
      · rw [hx0]; positivity
      · rintro ⟨hgt, -, -, -⟩
        rw [hx0] at hgt
        exact lt_irrefl 0 hgt
    · have hxw : jsRandom 0 1 u2 * (w : ℝ) = w := by rw [hx, one_mul]
      refine ⟨Or.inr (Or.inr (Or.inr hxw)), ?_, ?_, hyr.1, hyr.2, ?_⟩
      · rw [hxw]; positivity
      · rw [hxw]
      · rintro ⟨-, hlt, -, -⟩
        rw [hxw] at hlt
        exact lt_irrefl _ hlt

/-- C8 witness: a concrete spawn with all three draws 0 in the 600×600
arena lands on the boundary. -/
theorem spawnPosition_boundary_witness :
    ((0 : ℝ) ≤ 0 ∧ (0 : ℝ) < 1)
    ∧ (((spawnPosition 600 600 0 0 0).2 = 0
        ∨ (spawnPosition 600 600 0 0 0).2 = (600 : ℕ)
        ∨ (spawnPosition 600 600 0 0 0).1 = 0
        ∨ (spawnPosition 600 600 0 0 0).1 = (600 : ℕ))
      ∧ 0 ≤ (spawnPosition 600 600 0 0 0).1
      ∧ (spawnPosition 600 600 0 0 0).1 ≤ (600 : ℕ)
      ∧ 0 ≤ (spawnPosition 600 600 0 0 0).2
      ∧ (spawnPosition 600 600 0 0 0).2 ≤ (600 : ℕ)
      ∧ ¬(0 < (spawnPosition 600 600 0 0 0).1
          ∧ (spawnPosition 600 600 0 0 0).1 < (600 : ℕ)
          ∧ 0 < (spawnPosition 600 600 0 0 0).2
          ∧ (spawnPosition 600 600 0 0 0).2 < (600 : ℕ))) :=
  ⟨⟨le_refl 0, by norm_num⟩,
    spawnPosition_boundary 600 600 0 0 0 (le_refl 0) (by norm_num)
      (le_refl 0) (by norm_num)⟩

/-! ## Claim C9 -/

/-- C9: a `SkeletonsSword` is created with a tick counter of 5; the
counter decreases by exactly one on every tick regardless of the tick
delta; and on the tick where it reaches zero the sword destroys itself
even while still inside the arena, with no error, provided the bounds
check has not already destroyed it that tick. -/
theorem skeletonsSword_spec (x y tx ty : ℝ) (b : Bullet) (g : Game)
    (delta : ℝ) (hb : b.destroyed = false) :
    (newBullet BulletKind.skeletonsSword x y tx ty).tickTime = 5
    ∧ (skeletonsSwordOnTick b g delta).1.tickTime = b.tickTime - 1
    ∧ (¬(b.step delta).outside g → b.tickTime = 1 →
        (skeletonsSwordOnTick b g delta).1.destroyed = true
        ∧ (skeletonsSwordOnTick b g delta).2.2 = none) := by
  have harrow := enemiesArrowOnTick_eq b g delta hb
  refine ⟨?_, ?_, ?_⟩
  · show (if BulletKind.skeletonsSword = BulletKind.skeletonsSword
      then (5 : ℤ) else 0) = 5
    rw [if_pos rfl]
  · unfold skeletonsSwordOnTick
    rw [harrow]
    by_cases ho : (b.step delta).outside g
    · rw [if_pos ho]
      dsimp only
      split_ifs <;> rfl
    · rw [if_neg ho]
      dsimp only
      split_ifs <;> rfl
  · intro hin ht
    unfold skeletonsSwordOnTick
    rw [harrow, if_neg hin]
    dsimp only
    have h0 : ({ b.step delta with
        tickTime := (b.step delta).tickTime - 1 } : Bullet).tickTime = 0 := by
      show b.tickTime - 1 = 0
      rw [ht]
      decide
    rw [if_pos h0]
    have hd : ({ b.step delta with
        tickTime := (b.step delta).tickTime - 1 } : Bullet).destroyed = false := hb
    rw [if_neg (by rw [hd]; exact Bool.false_ne_true)]
    exact ⟨rfl, rfl⟩

/-- C9 witness: a concrete live sword inside the arena with counter 1,
ticked once: the counter reaches 0 and it self-destroys with no error. -/
theorem skeletonsSword_spec_witness :
    ({ bulletAt 300 200 BulletKind.skeletonsSword with
        tickTime := 1 } : Bullet).destroyed = false
    ∧ ¬(({ bulletAt 300 200 BulletKind.skeletonsSword with
        tickTime := 1 } : Bullet).step 0).outside baseGame
    ∧ ({ bulletAt 300 200 BulletKind.skeletonsSword with
        tickTime := 1 } : Bullet).tickTime = 1
    ∧ (newBullet BulletKind.skeletonsSword 0 0 1 1).tickTime = 5
    ∧ (skeletonsSwordOnTick { bulletAt 300 200 BulletKind.skeletonsSword with
        tickTime := 1 } baseGame 0).1.destroyed = true
    ∧ (skeletonsSwordOnTick { bulletAt 300 200 BulletKind.skeletonsSword with
        tickTime := 1 } baseGame 0).2.2 = none := by
  have hin : ¬(({ bulletAt 300 200 BulletKind.skeletonsSword with
      tickTime := 1 } : Bullet).step 0).outside baseGame := by
    rw [Bullet.step_zero]
    norm_num [Bullet.outside, bulletAt, baseGame]
  have h := skeletonsSword_spec 0 0 1 1
    { bulletAt 300 200 BulletKind.skeletonsSword with tickTime := 1 }
    baseGame 0 rfl
  exact ⟨rfl, hin, rfl, h.1, (h.2.2 hin rfl).1, (h.2.2 hin rfl).2⟩

/-- Sweeping two identical overlapping live enemies with a live bullet:
the bullet and the first enemy are destroyed, then the repeated
`destroy()` on the bullet raises `Is destroyed now` and the second enemy
survives. -/
theorem sweepEnemies_two_overlap (b : Bullet) (e : Enemy) (s l : ℕ)
    (hb : b.destroyed = false) (he : e.destroyed = false)
    (hc : collidesBE b e) :
    sweepEnemies b s l [e, e] =
      ({ b with destroyed := true }, [e], s + 1,
        min (max (Nat.sqrt (s + 1)) 1) 10, some "Is destroyed now") := by
  have hc1 : collidesBE ({ b with destroyed := true } : Bullet) e := hc
  simp only [sweepEnemies, hc, hc1, if_true, hb, he, Bool.false_eq_true,
    if_false]

/-- A full `ArchersBullet` tick against a set of two identical overlapping
enemies, with the moved bullet inside the arena: the tick raises
`Is destroyed now` and the second enemy survives. -/
theorem archersBulletOnTick_two_overlap (b : Bullet) (g : Game) (e : Enemy)
    (delta : ℝ) (hb : b.destroyed = false) (he : e.destroyed = false)
    (henem : g.enemies = [e, e]) (hin : ¬(b.step delta).outside g)
    (hc : collidesBE (b.step delta) e) :
    (archersBulletOnTick b g delta).2.2 = some "Is destroyed now"
    ∧ (archersBulletOnTick b g delta).2.1.enemies = [e] := by
  unfold archersBulletOnTick
  rw [onTickBase_eq b g delta hb, if_neg hin]
  dsimp only
  rw [henem, sweepEnemies_two_overlap (b.step delta) e g.score g.level hb he hc]
  exact ⟨rfl, rfl⟩

/-! ## Claim C2 -/

/-- C2 counterexample.  First: an enemy arrow overlapping the archer ends
the game, but the projectile is not destroyed — against the claim that on
overlap "the projectile is destroyed".  Second: a player bullet
overlapping two live enemies destroys only the first; the repeated
`destroy()` on the bullet raises `Is destroyed now` and the second
overlapping enemy survives — against the claim that "on each overlap both
the projectile and that enemy are destroyed". -/
theorem projectileCollision_counterexample :
    (collidesBA ((bulletAt 300 300 BulletKind.enemiesArrow).step 0)
        baseGame.archer
      ∧ (enemiesArrowOnTick (bulletAt 300 300 BulletKind.enemiesArrow)
          baseGame 0).2.1.isGamePlay = false
      ∧ (enemiesArrowOnTick (bulletAt 300 300 BulletKind.enemiesArrow)
          baseGame 0).1.destroyed = false)
    ∧ (collidesBE ((bulletAt 300 300 BulletKind.archersBullet).step 0)
        (skeletonAt 300 300)
      ∧ (archersBulletOnTick (bulletAt 300 300 BulletKind.archersBullet)
          { baseGame with
            enemies := [skeletonAt 300 300, skeletonAt 300 300] } 0).2.2
          = some "Is destroyed now"
      ∧ (archersBulletOnTick (bulletAt 300 300 BulletKind.archersBullet)
          { baseGame with
            enemies := [skeletonAt 300 300, skeletonAt 300 300] } 0).2.1.enemies
          = [skeletonAt 300 300]) := by
  have hstepA : (bulletAt 300 300 BulletKind.enemiesArrow).step 0
      = bulletAt 300 300 BulletKind.enemiesArrow := Bullet.step_zero _
  have hstepB : (bulletAt 300 300 BulletKind.archersBullet).step 0
      = bulletAt 300 300 BulletKind.archersBullet := Bullet.step_zero _
  have hcolA : collidesBA (bulletAt 300 300 BulletKind.enemiesArrow)
      baseGame.archer := by
    norm_num [collidesBA, detectCollision, minRadius, bulletAt, baseGame,
      archer300, bulletKindWidth, bulletKindHeight, min_def]
  have hcolB : collidesBE (bulletAt 300 300 BulletKind.archersBullet)
      (skeletonAt 300 300) := by
    norm_num [collidesBE, detectCollision, minRadius, bulletAt, skeletonAt,
      bulletKindWidth, bulletKindHeight, min_def]
  have houtA : ¬(bulletAt 300 300 BulletKind.enemiesArrow).outside baseGame := by
    norm_num [Bullet.outside, bulletAt, baseGame]
  have houtB : ¬(bulletAt 300 300 BulletKind.archersBullet).outside
      ({ baseGame with
        enemies := [skeletonAt 300 300, skeletonAt 300 300] } : Game) := by
    norm_num [Bullet.outside, bulletAt, baseGame]
  have harrow := enemiesArrowOnTick_eq
    (bulletAt 300 300 BulletKind.enemiesArrow) baseGame 0 rfl
  rw [hstepA] at harrow
  rw [if_neg houtA, if_pos hcolA] at harrow
  have htwo := archersBulletOnTick_two_overlap
    (bulletAt 300 300 BulletKind.archersBullet)
    { baseGame with enemies := [skeletonAt 300 300, skeletonAt 300 300] }
    (skeletonAt 300 300) 0 rfl rfl rfl (by rw [hstepB]; exact houtB)
    (by rw [hstepB]; exact hcolB)
  refine ⟨⟨?_, ?_, ?_⟩, ⟨?_, htwo.1, htwo.2⟩⟩
  · rw [hstepA]
    exact hcolA
  · rw [harrow]
    rfl
  · rw [harrow]
    rfl
  · rw [hstepB]
    exact hcolB

/-- C2 (amended): after a projectile has moved, an enemy-owned projectile
is tested against the player only; on overlap the game ends (the Lost
phase: the play flag drops and ticking stops) but the projectile itself is
not destroyed by the hit — it is destroyed only by leaving the arena.  A
player-owned projectile still inside the arena is tested against every
live enemy in order; when exactly one live enemy overlaps it, the
projectile and that enemy are destroyed, the enemy leaves the live set and
the score is incremented — a further overlapping enemy would instead make
the repeated projectile `destroy()` raise an error and itself survive. -/
theorem projectileCollision_spec (b : Bullet) (g : Game) (delta : ℝ)
    (hb : b.destroyed = false) :
    ((enemiesArrowOnTick b g delta).2.2 = none
      ∧ ((enemiesArrowOnTick b g delta).1.destroyed = true ↔
          (b.step delta).outside g)
      ∧ (enemiesArrowOnTick b g delta).2.1
          = (if collidesBA (b.step delta) g.archer then g.gameOver else g)
      ∧ g.gameOver.isGamePlay = false)
    ∧ (∀ l1 e l2, g.enemies = l1 ++ e :: l2 → ¬(b.step delta).outside g →
        e.destroyed = false → collidesBE (b.step delta) e →
        (∀ x ∈ l1 ++ l2, ¬collidesBE (b.step delta) x) →
        archersBulletOnTick b g delta =
          ({ b.step delta with destroyed := true },
            { g with
                enemies := l1 ++ l2
                score := g.score + 1
                level := min (max (Nat.sqrt (g.score + 1)) 1) 10 },
            none)) := by
  have harrow := enemiesArrowOnTick_eq b g delta hb
  refine ⟨⟨?_, ?_, ?_, rfl⟩, ?_⟩
  · rw [harrow]
  · rw [harrow]
    by_cases ho : (b.step delta).outside g
    · rw [if_pos ho]
      exact ⟨fun _ => ho, fun _ => rfl⟩
    · rw [if_neg ho]
      constructor
      · intro h
        have hbd : b.destroyed = true := h
        rw [hb] at hbd
        exact absurd hbd (by decide)
      · intro h
        exact absurd h ho
  · rw [harrow]
  · intro l1 e l2 henem hin he hc hrest
    unfold archersBulletOnTick
    rw [onTickBase_eq b g delta hb, if_neg hin]
    dsimp only
    rw [henem, sweepEnemies_single (b.step delta) g.score g.level l1 e l2 hb
      he hc (fun x hx => hrest x (List.mem_append_left l2 hx))
      (fun x hx => hrest x (List.mem_append_right l1 hx))]

/-- C2 witness: a concrete live enemy arrow away from the archer, ticked
in the base game: no error, not destroyed, game unchanged. -/
theorem projectileCollision_spec_witness :
    (bulletAt 10 10 BulletKind.enemiesArrow).destroyed = false
    ∧ ((enemiesArrowOnTick (bulletAt 10 10 BulletKind.enemiesArrow)
          baseGame 0).2.2 = none
      ∧ ((enemiesArrowOnTick (bulletAt 10 10 BulletKind.enemiesArrow)
          baseGame 0).1.destroyed = true ↔
          ((bulletAt 10 10 BulletKind.enemiesArrow).step 0).outside baseGame)
      ∧ (enemiesArrowOnTick (bulletAt 10 10 BulletKind.enemiesArrow)
          baseGame 0).2.1
          = (if collidesBA ((bulletAt 10 10 BulletKind.enemiesArrow).step 0)
              baseGame.archer then baseGame.gameOver else baseGame)
      ∧ baseGame.gameOver.isGamePlay = false) :=
  ⟨rfl, (projectileCollision_spec (bulletAt 10 10 BulletKind.enemiesArrow)
    baseGame 0 rfl).1⟩

/-! ## Claim C10 -/

/-- C10: if after moving a player bullet is inside the arena and at most
one live enemy overlaps it, the tick raises no `Is destroyed now` error
(destroy() runs at most once on the bullet); and the precondition is
necessary — with two overlapping enemies the same tick raises exactly that
error. -/
theorem archersBulletTick_single_hit_safe (b : Bullet) (g : Game)
    (delta : ℝ) (hb : b.destroyed = false)
    (hin : ¬(b.step delta).outside g)
    (hlive : ∀ e ∈ g.enemies, e.destroyed = false)
    (hcount : countOverlaps (b.step delta) g.enemies ≤ 1) :
    (archersBulletOnTick b g delta).2.2 = none
    ∧ (archersBulletOnTick (bulletAt 100 100 BulletKind.archersBullet)
        { baseGame with
          enemies := [skeletonAt 100 100, skeletonAt 100 100] } 0).2.2
        = some "Is destroyed now" := by
  constructor
  · unfold archersBulletOnTick
    rw [onTickBase_eq b g delta hb, if_neg hin]
    dsimp only
    exact sweepEnemies_err_none (b.step delta) g.score g.level g.enemies hb
      hlive hcount
  · have hstep : (bulletAt 100 100 BulletKind.archersBullet).step 0
        = bulletAt 100 100 BulletKind.archersBullet := Bullet.step_zero _
    have hcol : collidesBE (bulletAt 100 100 BulletKind.archersBullet)
        (skeletonAt 100 100) := by
      norm_num [collidesBE, detectCollision, minRadius, bulletAt, skeletonAt,
        bulletKindWidth, bulletKindHeight, min_def]
    have hout : ¬(bulletAt 100 100 BulletKind.archersBullet).outside
        ({ baseGame with
          enemies := [skeletonAt 100 100, skeletonAt 100 100] } : Game) := by
      norm_num [Bullet.outside, bulletAt, baseGame]
    exact (archersBulletOnTick_two_overlap
      (bulletAt 100 100 BulletKind.archersBullet)
      { baseGame with enemies := [skeletonAt 100 100, skeletonAt 100 100] }
      (skeletonAt 100 100) 0 rfl rfl rfl (by rw [hstep]; exact hout)
      (by rw [hstep]; exact hcol)).1

/-- C10 witness: a concrete inside-arena bullet overlapping exactly the
one live enemy of the game ticks without error. -/
theorem archersBulletTick_single_hit_safe_witness :
    (bulletAt 200 200 BulletKind.archersBullet).destroyed = false
    ∧ ¬((bulletAt 200 200 BulletKind.archersBullet).step 0).outside
        ({ baseGame with enemies := [skeletonAt 200 200] } : Game)
    ∧ (∀ e ∈ ({ baseGame with
        enemies := [skeletonAt 200 200] } : Game).enemies,
        e.destroyed = false)
    ∧ countOverlaps ((bulletAt 200 200 BulletKind.archersBullet).step 0)
        ({ baseGame with enemies := [skeletonAt 200 200] } : Game).enemies ≤ 1
    ∧ (archersBulletOnTick (bulletAt 200 200 BulletKind.archersBullet)
        { baseGame with enemies := [skeletonAt 200 200] } 0).2.2 = none := by
  have hstep : (bulletAt 200 200 BulletKind.archersBullet).step 0
      = bulletAt 200 200 BulletKind.archersBullet := Bullet.step_zero _
  have hin : ¬((bulletAt 200 200 BulletKind.archersBullet).step 0).outside
      ({ baseGame with enemies := [skeletonAt 200 200] } : Game) := by
    rw [hstep]
    norm_num [Bullet.outside, bulletAt, baseGame]
  have hlive : ∀ e ∈ ({ baseGame with
      enemies := [skeletonAt 200 200] } : Game).enemies,
      e.destroyed = false := by
    intro e hevar
    rcases List.mem_singleton.mp hevar with rfl
    rfl
  have hcount : countOverlaps ((bulletAt 200 200 BulletKind.archersBullet).step 0)
      ({ baseGame with enemies := [skeletonAt 200 200] } : Game).enemies ≤ 1 := by
    show (if collidesBE ((bulletAt 200 200 BulletKind.archersBullet).step 0)
        (skeletonAt 200 200) then 1 else 0)
      + countOverlaps ((bulletAt 200 200 BulletKind.archersBullet).step 0) [] ≤ 1
    split_ifs <;> simp [countOverlaps]
  exact ⟨rfl, hin, hlive, hcount,
    (archersBulletTick_single_hit_safe (bulletAt 200 200 BulletKind.archersBullet)
      { baseGame with enemies := [skeletonAt 200 200] } 0 rfl hin hlive
      hcount).1⟩

/-! ## Claim C3 theorem -/

/-- C3: for every self position `(sx, sy)` and target position `(tx, ty)`,
`getAngleToTarget` returns `atan(dy/dx)·180/π` adjusted by +180 when
`dy ≥ 0 ∧ dx ≥ 0` (that branch taking precedence at `dy = 0`), by −180
when `dy ≤ 0 ∧ dx ≥ 0`, and not at all when `dx < 0`. -/
theorem getAngleToTarget_eq_spec (sx sy tx ty : ℝ) :
    getAngleToTarget sx sy tx ty = angleToTargetSpec sx sy tx ty := by
  unfold getAngleToTarget angleToTargetSpec
  by_cases hdx : sx - tx < 0
  · have h1 : ¬((sy - ty) ≥ 0 ∧ (sx - tx) ≥ 0) := by
      rintro ⟨-, h⟩; linarith
    have h2 : ¬((sy - ty) ≤ 0 ∧ (sx - tx) ≥ 0) := by
      rintro ⟨-, h⟩; linarith
    simp only [h1, h2, hdx, if_true, if_false]
  · have hdx' : (sx - tx) ≥ 0 := le_of_not_lt hdx
    by_cases hdy : (sy - ty) ≥ 0
    · simp only [hdx, hdy, hdx', and_self, if_true, if_false, and_true]
    · have hdy' : (sy - ty) ≤ 0 := le_of_not_le hdy
      have h1 : ¬((sy - ty) ≥ 0 ∧ (sx - tx) ≥ 0) := by rintro ⟨h, -⟩; exact hdy h
      simp only [h1, hdx, hdy, hdy', hdx', and_self, if_true, if_false,
        false_and, and_true]

end ArcherDefence
